import Mathlib

/-!
Verification of the media caption pipeline (`app.py`).

The script dispatches a file path by extension, loads an image directly
(PIL `Image.open`) or extracts the middle frame of a video (OpenCV),
classifies the frame with a pretrained ViT model, and asks a remote text
service (AWS Bedrock) for captions and hashtags.

The embedding is a shallow one: external services (the video decoder, the
image decoder, the classification model, the remote generation endpoint)
are an explicit environment `Env`; each Python function becomes a Lean
function returning its result together with the list of observable events
(console prints, resource acquisitions, classification calls, remote
requests) it performs, in order.  Python exceptions become `Except`
errors; an error return carries the events emitted before the raise.
-/

namespace CaptionApp

/-- Channel storage order of an in-memory image. -/
inductive ChannelOrder where
  | bgr
  | rgb
deriving DecidableEq, Repr

/-- One pixel as stored: a triple of channel values in storage order
(so a BGR-ordered frame stores (blue, green, red) and an RGB-ordered one
stores (red, green, blue)). -/
abbrev Pixel := Nat × Nat × Nat

/-- A row-major grid of pixels, as a decoder produces it. -/
abbrev RawFrame := List (List Pixel)

/-- A decoded in-memory image: a pixel grid together with its channel
storage order.  PIL images carry RGB data; raw OpenCV frames carry BGR
data until converted. -/
structure Frame where
  order : ChannelOrder
  pixels : RawFrame
deriving DecidableEq, Repr

/-- The state behind a `cv2.VideoCapture` handle: the container's reported
frame count (`CAP_PROP_FRAME_COUNT`) and the decoder, which either yields
the raw BGR frame at a seek position or fails (`cap.read()` returning
`success = False`). -/
structure Video where
  totalFrames : Nat
  decodeAt : Nat → Option RawFrame

/-- The response body of a successful `bedrock.invoke_model` call, reduced
to what the script reads: the texts of `data.output.message.content`. -/
structure BedrockResponse where
  content : List String

/-- Observable events of a run, in program order. -/
inductive Event where
  /-- a `print(...)` call with the text printed -/
  | printed (s : String)
  /-- `Image.open(path)` -/
  | imageOpened (path : String)
  /-- `cv2.VideoCapture(path)` acquired -/
  | capOpened (path : String)
  /-- `cap.set(CAP_PROP_POS_FRAMES, index)` -/
  | capSought (path : String) (index : Nat)
  /-- `cap.read()` -/
  | capRead (path : String)
  /-- `cap.release()` -/
  | capReleased (path : String)
  /-- `classify_image` invoked on a frame -/
  | classified (f : Frame)
  /-- `bedrock.invoke_model` issued for a prompt -/
  | remoteCalled (prompt : String)
deriving DecidableEq, Repr

/-- The Python exceptions that can escape the pipeline. -/
inductive PyError where
  /-- `Exception("Could not extract frame!")` from `extract_middle_frame`;
  the spec's `FrameExtractionError` -/
  | frameExtractionError
  /-- any transport/auth/rate-limit failure surfaced by the boto3 client;
  the spec's `RemoteServiceError` -/
  | remoteServiceError
  /-- `IndexError` from `content[0]` on an empty content list -/
  | indexError
deriving DecidableEq, Repr

/-- The external world the script runs against: the video container behind
each path, the decoded pixel data PIL yields for each image path, the
pretrained classifier (ViT top-1 `id2label` lookup), and the remote
generation service. -/
structure Env where
  videoOf : String → Video
  openImage : String → RawFrame
  classify : Frame → String
  remote : String → Except Unit BedrockResponse

/-- Python `str.lower()` (per-character lowercasing). -/
def lower (s : String) : String := ⟨s.data.map Char.toLower⟩

/-- Python `s.endswith(t)`: `t` is a suffix of `s`. -/
def endswith (s t : String) : Bool := decide (t.data <:+ s.data)

/-- `path.lower().endswith((".jpg", ".jpeg", ".png"))` — app.py line 107. -/
def isImagePath (path : String) : Bool :=
  endswith (lower path) ".jpg" || endswith (lower path) ".jpeg" ||
    endswith (lower path) ".png"

/-- `path.lower().endswith((".mp4", ".mov", ".mkv"))` — app.py line 113. -/
def isVideoPath (path : String) : Bool :=
  endswith (lower path) ".mp4" || endswith (lower path) ".mov" ||
    endswith (lower path) ".mkv"

/-- `bedrock_generate(prompt)` — app.py lines 13-33.  Issues one remote
request carrying the prompt and returns the first text segment of the
response (`data["output"]["message"]["content"][0]["text"]`). -/
def bedrock_generate (env : Env) (prompt : String) :
    List Event × Except PyError String :=
  ([Event.remoteCalled prompt],
    match env.remote prompt with
    | .error _ => .error .remoteServiceError
    | .ok data =>
      match data.content with
      | [] => .error .indexError
      | t :: _ => .ok t)

/-- `cv2.cvtColor(frame, cv2.COLOR_BGR2RGB)`: reverse the channel order of
every pixel, so a stored (b, g, r) becomes a stored (r, g, b). -/
def cvtColor_BGR2RGB (raw : RawFrame) : RawFrame :=
  raw.map (fun row => row.map (fun p => (p.2.2, p.2.1, p.1)))

/-- `Image.fromarray(frame)`: wrap an array as a PIL image, interpreting
its data as RGB-ordered. -/
def Image_fromarray (raw : RawFrame) : Frame :=
  { order := ChannelOrder.rgb, pixels := raw }

/-- `Image.open(path)`: PIL decodes color images with RGB channel order,
so the loaded frame is RGB-ordered by the library's semantics. -/
def Image_open (env : Env) (path : String) : Frame :=
  { order := ChannelOrder.rgb, pixels := env.openImage path }

/-- `classify_image(pil_img)` — app.py lines 48-52.  The processor, model
forward pass, argmax and `id2label` lookup are the pretrained model, an
external component: the environment's `classify` oracle. -/
def classify_image (env : Env) (img : Frame) : List Event × String :=
  ([Event.classified img], env.classify img)

/-- `extract_middle_frame(video_path)` — app.py lines 58-73.  Opens the
capture, reads the frame count, seeks to `total_frames // 2`, reads one
frame, releases the handle, raises on read failure, and otherwise converts
BGR to RGB and wraps the array as a PIL image. -/
def extract_middle_frame (env : Env) (path : String) :
    List Event × Except PyError Frame :=
  let cap := env.videoOf path
  let mid := cap.totalFrames / 2
  ([Event.capOpened path, Event.capSought path mid, Event.capRead path,
      Event.capReleased path],
    match cap.decodeAt mid with
    | none => .error .frameExtractionError
    | some raw => .ok (Image_fromarray (cvtColor_BGR2RGB raw)))

/-- The caption prompt f-string — app.py lines 80-86. -/
def caption_prompt (theme : String) : String :=
  "\nGenerate 3 Instagram captions for: " ++ theme ++
    "\n\n1. Aesthetic (under 12 words)\n2. Funny (under 12 words)\n3. Influencer style (under 12 words)\n"

/-- The hashtag prompt f-string — app.py lines 88-94. -/
def hashtags_prompt (theme : String) : String :=
  "\nGenerate 15 Instagram hashtags for " ++ theme ++
    ".\nRules:\n- lowercase\n- no spaces\n- comma separated\n"

/-- `generate_caption_and_hashtags(theme)` — app.py lines 79-99. -/
def generate_caption_and_hashtags (env : Env) (theme : String) :
    List Event × Except PyError (String × String) :=
  let r1 := bedrock_generate env (caption_prompt theme)
  match r1.2 with
  | .error e => (r1.1, .error e)
  | .ok captions =>
    let r2 := bedrock_generate env (hashtags_prompt theme)
    match r2.2 with
    | .error e => (r1.1 ++ r2.1, .error e)
    | .ok hashtags => (r1.1 ++ r2.1, .ok (captions, hashtags))

/-- The text of the `print("Detected Theme:", label)` line. -/
def detectedTheme (label : String) : String := "Detected Theme: " ++ label

/-- app.py lines 122-127: the common tail of `process_file` once a label
was obtained — print the theme, generate captions and hashtags, print
both. -/
def report_results (env : Env) (label : String) :
    List Event × Except PyError Unit :=
  let g := generate_caption_and_hashtags env label
  match g.2 with
  | .error e => (Event.printed (detectedTheme label) :: g.1, .error e)
  | .ok (captions, hashtags) =>
    (Event.printed (detectedTheme label) :: g.1 ++
        [Event.printed ("\n✨ CAPTIONS:\n " ++ captions),
         Event.printed ("\n🔖 HASHTAGS:\n " ++ hashtags)],
      .ok ())

/-- `process_file(path)` — app.py lines 105-127. -/
def process_file (env : Env) (path : String) :
    List Event × Except PyError Unit :=
  if isImagePath path then
    let img := Image_open env path
    let c := classify_image env img
    let t := report_results env c.2
    (Event.printed "Processing IMAGE...\n" :: Event.imageOpened path ::
        c.1 ++ t.1, t.2)
  else if isVideoPath path then
    let e := extract_middle_frame env path
    match e.2 with
    | .error err => (Event.printed "Processing VIDEO...\n" :: e.1, .error err)
    | .ok img =>
      let c := classify_image env img
      let t := report_results env c.2
      (Event.printed "Processing VIDEO...\n" :: e.1 ++ c.1 ++ t.1, t.2)
  else
    ([Event.printed "Unsupported file!"], .ok ())

/-- A concrete video: 100 frames, decodable exactly at indices below 100,
with a single known BGR pixel at every decodable position. -/
def sampleVideo : Video :=
  { totalFrames := 100,
    decodeAt := fun i => if i < 100 then some [[(10, 20, 30)]] else none }

/-- A zero-frame video whose decoder always fails. -/
def emptyVideo : Video :=
  { totalFrames := 0, decodeAt := fun _ => none }

/-- A concrete healthy environment: every video is `sampleVideo`, every
image decodes to one pixel, the classifier always answers "seashore", and
the remote service echoes the prompt as its single text segment. -/
def sampleEnv : Env :=
  { videoOf := fun _ => sampleVideo
    openImage := fun _ => [[(1, 2, 3)]]
    classify := fun _ => "seashore"
    remote := fun p => .ok { content := [p] } }

/-- A failing environment: videos are empty and the remote service always
fails with a transport error. -/
def failEnv : Env :=
  { videoOf := fun _ => emptyVideo
    openImage := fun _ => [[(1, 2, 3)]]
    classify := fun _ => "seashore"
    remote := fun _ => .error () }

/-- An environment whose videos decode fine but whose remote service
always fails with a transport error. -/
def remoteFailEnv : Env :=
  { videoOf := fun _ => sampleVideo
    openImage := fun _ => [[(1, 2, 3)]]
    classify := fun _ => "seashore"
    remote := fun _ => .error () }

end CaptionApp

namespace CaptionApp

/-! ## Characterization lemmas -/

theorem bedrock_generate_err (env : Env) (prompt : String) (u : Unit)
    (h : env.remote prompt = .error u) :
    bedrock_generate env prompt
      = ([Event.remoteCalled prompt], .error .remoteServiceError) := by
  unfold bedrock_generate
  rw [h]

theorem bedrock_generate_ok (env : Env) (prompt : String) (d : BedrockResponse)
    (t : String) (rest : List String)
    (h : env.remote prompt = .ok d) (hc : d.content = t :: rest) :
    bedrock_generate env prompt = ([Event.remoteCalled prompt], .ok t) := by
  unfold bedrock_generate
  rw [h]
  dsimp only
  rw [hc]

theorem generate_ok (env : Env) (theme : String) (d1 d2 : BedrockResponse)
    (t1 t2 : String) (r1 r2 : List String)
    (h1 : env.remote (caption_prompt theme) = .ok d1) (hc1 : d1.content = t1 :: r1)
    (h2 : env.remote (hashtags_prompt theme) = .ok d2) (hc2 : d2.content = t2 :: r2) :
    generate_caption_and_hashtags env theme
      = ([Event.remoteCalled (caption_prompt theme),
          Event.remoteCalled (hashtags_prompt theme)], .ok (t1, t2)) := by
  unfold generate_caption_and_hashtags
  rw [bedrock_generate_ok env _ d1 t1 r1 h1 hc1, bedrock_generate_ok env _ d2 t2 r2 h2 hc2]
  rfl

theorem generate_err1 (env : Env) (theme : String) (u : Unit)
    (h1 : env.remote (caption_prompt theme) = .error u) :
    generate_caption_and_hashtags env theme
      = ([Event.remoteCalled (caption_prompt theme)],
          .error .remoteServiceError) := by
  unfold generate_caption_and_hashtags
  rw [bedrock_generate_err env _ u h1]

theorem generate_err2 (env : Env) (theme : String) (d1 : BedrockResponse)
    (t1 : String) (r1 : List String) (u : Unit)
    (h1 : env.remote (caption_prompt theme) = .ok d1) (hc1 : d1.content = t1 :: r1)
    (h2 : env.remote (hashtags_prompt theme) = .error u) :
    generate_caption_and_hashtags env theme
      = ([Event.remoteCalled (caption_prompt theme),
          Event.remoteCalled (hashtags_prompt theme)],
          .error .remoteServiceError) := by
  unfold generate_caption_and_hashtags
  rw [bedrock_generate_ok env _ d1 t1 r1 h1 hc1, bedrock_generate_err env _ u h2]
  rfl

/-- Every run of `generate_caption_and_hashtags` emits one of two traces,
both consisting only of remote requests. -/
theorem generate_events (env : Env) (theme : String) :
    (generate_caption_and_hashtags env theme).1
        = [Event.remoteCalled (caption_prompt theme)] ∨
      (generate_caption_and_hashtags env theme).1
        = [Event.remoteCalled (caption_prompt theme),
           Event.remoteCalled (hashtags_prompt theme)] := by
  unfold generate_caption_and_hashtags bedrock_generate
  cases h1 : env.remote (caption_prompt theme) with
  | error u => left; rfl
  | ok d1 =>
    dsimp only
    cases hc1 : d1.content with
    | nil => left; rfl
    | cons t1 r1 =>
      dsimp only
      cases h2 : env.remote (hashtags_prompt theme) with
      | error u => right; rfl
      | ok d2 =>
        dsimp only
        cases hc2 : d2.content with
        | nil => right; rfl
        | cons t2 r2 => right; rfl

theorem report_results_of_err (env : Env) (label : String) (tr : List Event)
    (e : PyError) (hg : generate_caption_and_hashtags env label = (tr, .error e)) :
    report_results env label
      = (Event.printed (detectedTheme label) :: tr, .error e) := by
  unfold report_results
  rw [hg]

theorem report_results_of_ok (env : Env) (label : String) (tr : List Event)
    (c h : String)
    (hg : generate_caption_and_hashtags env label = (tr, .ok (c, h))) :
    report_results env label
      = (Event.printed (detectedTheme label) :: tr ++
          [Event.printed ("\n✨ CAPTIONS:\n " ++ c),
           Event.printed ("\n🔖 HASHTAGS:\n " ++ h)],
         .ok ()) := by
  unfold report_results
  rw [hg]

/-- The common tail always prints the detected theme first, and every
later event it emits is a print or a remote request. -/
theorem report_results_shape (env : Env) (label : String) :
    ∃ rest, (report_results env label).1
        = Event.printed (detectedTheme label) :: rest ∧
      ∀ e ∈ rest, (∃ s, e = Event.printed s) ∨ ∃ p, e = Event.remoteCalled p := by
  have hev := generate_events env label
  cases hr : (generate_caption_and_hashtags env label).2 with
  | error e =>
    have hg : generate_caption_and_hashtags env label
        = ((generate_caption_and_hashtags env label).1, Except.error e) := by
      rw [← hr]
    rw [report_results_of_err env label _ e hg]
    refine ⟨_, rfl, ?_⟩
    intro ev hev'
    rcases hev with h | h <;> rw [h] at hev' <;> simp at hev' <;>
      first
        | exact Or.inr ⟨_, hev'⟩
        | rcases hev' with hev' | hev' <;> exact Or.inr ⟨_, hev'⟩
  | ok pr =>
    cases pr with
    | mk c h =>
      have hg : generate_caption_and_hashtags env label
          = ((generate_caption_and_hashtags env label).1, Except.ok (c, h)) := by
        rw [← hr]
      rw [report_results_of_ok env label _ c h hg]
      refine ⟨_, rfl, ?_⟩
      intro ev hev'
      rcases List.mem_append.mp hev' with hm | hm
      · rcases hev with hl | hl <;> rw [hl] at hm <;> simp at hm
        · exact Or.inr ⟨_, hm⟩
        · rcases hm with hm | hm <;> exact Or.inr ⟨_, hm⟩
      · simp at hm
        rcases hm with hm | hm <;> exact Or.inl ⟨_, hm⟩

theorem process_file_image (env : Env) (path : String)
    (h : isImagePath path = true) :
    process_file env path
      = (Event.printed "Processing IMAGE...\n" :: Event.imageOpened path ::
          Event.classified (Image_open env path) ::
          (report_results env (env.classify (Image_open env path))).1,
         (report_results env (env.classify (Image_open env path))).2) := by
  unfold process_file classify_image
  rw [h]
  rfl

theorem process_file_unsupported (env : Env) (path : String)
    (hI : isImagePath path = false) (hV : isVideoPath path = false) :
    process_file env path = ([Event.printed "Unsupported file!"], .ok ()) := by
  unfold process_file
  rw [hI, hV]
  rfl

theorem process_file_video_ok (env : Env) (path : String) (raw : RawFrame)
    (hI : isImagePath path = false) (hV : isVideoPath path = true)
    (hd : (env.videoOf path).decodeAt ((env.videoOf path).totalFrames / 2)
        = some raw) :
    process_file env path
      = (Event.printed "Processing VIDEO...\n" :: Event.capOpened path ::
          Event.capSought path ((env.videoOf path).totalFrames / 2) ::
          Event.capRead path :: Event.capReleased path ::
          Event.classified (Image_fromarray (cvtColor_BGR2RGB raw)) ::
          (report_results env
            (env.classify (Image_fromarray (cvtColor_BGR2RGB raw)))).1,
         (report_results env
            (env.classify (Image_fromarray (cvtColor_BGR2RGB raw)))).2) := by
  unfold process_file extract_middle_frame classify_image
  rw [hI, hV]
  dsimp only
  rw [hd]
  rfl

theorem process_file_video_err (env : Env) (path : String)
    (hI : isImagePath path = false) (hV : isVideoPath path = true)
    (hd : (env.videoOf path).decodeAt ((env.videoOf path).totalFrames / 2)
        = none) :
    process_file env path
      = ([Event.printed "Processing VIDEO...\n", Event.capOpened path,
          Event.capSought path ((env.videoOf path).totalFrames / 2),
          Event.capRead path, Event.capReleased path],
         .error .frameExtractionError) := by
  unfold process_file extract_middle_frame
  rw [hI, hV]
  dsimp only
  rw [hd]
  rfl

/-- No path matches both an image extension and a video extension: two
suffixes of the same character list are comparable, and no recognized
image suffix is comparable with a recognized video suffix. -/
theorem image_video_disjoint (path : String) (h : isVideoPath path = true) :
    isImagePath path = false := by
  cases hi : isImagePath path with
  | false => rfl
  | true =>
    exfalso
    simp only [isVideoPath, endswith, Bool.or_eq_true, decide_eq_true_eq] at h
    simp only [isImagePath, endswith, Bool.or_eq_true, decide_eq_true_eq] at hi
    rcases h with (h | h) | h <;> rcases hi with (g | g) | g <;>
      rcases List.suffix_or_suffix_of_suffix h g with s | s <;> revert s <;> decide

theorem caption_prompt_data (theme : String) :
    (caption_prompt theme).data
      = "\nGenerate 3 Instagram captions for: ".data ++ theme.data ++
          "\n\n1. Aesthetic (under 12 words)\n2. Funny (under 12 words)\n3. Influencer style (under 12 words)\n".data := by
  unfold caption_prompt
  rw [String.data_append, String.data_append]

theorem hashtags_prompt_data (theme : String) :
    (hashtags_prompt theme).data
      = "\nGenerate 15 Instagram hashtags for ".data ++ theme.data ++
          ".\nRules:\n- lowercase\n- no spaces\n- comma separated\n".data := by
  unfold hashtags_prompt
  rw [String.data_append, String.data_append]

end CaptionApp

namespace CaptionApp

/-! ## Claims -/

/-- Claim C1: for every path whose lowercased form ends in `.jpg`, `.jpeg`
or `.png`, `process_file` routes to the direct image load (`Image.open`),
never acquires a video capture (so never calls `extract_middle_frame`),
and passes the loaded image to `classify_image`. -/
theorem C1_image_route (env : Env) (path : String)
    (h : isImagePath path = true) :
    Event.imageOpened path ∈ (process_file env path).1 ∧
    Event.classified (Image_open env path) ∈ (process_file env path).1 ∧
    ∀ p, Event.capOpened p ∉ (process_file env path).1 := by
  rw [process_file_image env path h]
  obtain ⟨rest, hr, hrest⟩ :=
    report_results_shape env (env.classify (Image_open env path))
  dsimp only
  rw [hr]
  refine ⟨by simp, by simp, ?_⟩
  intro p hp
  simp only [List.mem_cons] at hp
  rcases hp with hp | hp | hp | hp | hp
  · exact Event.noConfusion hp
  · exact Event.noConfusion hp
  · exact Event.noConfusion hp
  · exact Event.noConfusion hp
  · rcases hrest _ hp with ⟨s, hs⟩ | ⟨q, hq⟩
    · exact Event.noConfusion hs
    · exact Event.noConfusion hq

theorem C1_witness :
    isImagePath "beach.jpg" = true ∧
    Event.imageOpened "beach.jpg" ∈ (process_file sampleEnv "beach.jpg").1 ∧
    Event.classified (Image_open sampleEnv "beach.jpg")
      ∈ (process_file sampleEnv "beach.jpg").1 :=
  have h := C1_image_route sampleEnv "beach.jpg" (by decide)
  ⟨by decide, h.1, h.2.1⟩

/-- Claim C2: for every path whose lowercased form ends in `.mp4`, `.mov`
or `.mkv`, `process_file` calls `extract_middle_frame` on that path (the
video capture is acquired), and whenever the middle-frame decode succeeds,
the extracted frame is passed to `classify_image` strictly before any
remote caption-generation request is issued. -/
theorem C2_video_route (env : Env) (path : String)
    (h : isVideoPath path = true) :
    Event.capOpened path ∈ (process_file env path).1 ∧
    ∀ raw,
      (env.videoOf path).decodeAt ((env.videoOf path).totalFrames / 2)
          = some raw →
        ∃ pre suf,
          (process_file env path).1
              = pre ++ Event.classified (Image_fromarray (cvtColor_BGR2RGB raw))
                  :: suf ∧
            ∀ p, Event.remoteCalled p ∉ pre := by
  have hI := image_video_disjoint path h
  constructor
  · cases hd : (env.videoOf path).decodeAt ((env.videoOf path).totalFrames / 2) with
    | none => rw [process_file_video_err env path hI h hd]; simp
    | some raw => rw [process_file_video_ok env path raw hI h hd]; simp
  · intro raw hd
    rw [process_file_video_ok env path raw hI h hd]
    refine ⟨[Event.printed "Processing VIDEO...\n", Event.capOpened path,
      Event.capSought path ((env.videoOf path).totalFrames / 2),
      Event.capRead path, Event.capReleased path],
      (report_results env
        (env.classify (Image_fromarray (cvtColor_BGR2RGB raw)))).1,
      by simp, ?_⟩
    intro p hp
    simp only [List.mem_cons, List.not_mem_nil, or_false] at hp
    rcases hp with hp | hp | hp | hp | hp <;> exact Event.noConfusion hp

theorem C2_witness :
    isVideoPath "clip.MP4" = true ∧
    Event.capOpened "clip.MP4" ∈ (process_file sampleEnv "clip.MP4").1 ∧
    ∃ pre suf,
      (process_file sampleEnv "clip.MP4").1
          = pre ++ Event.classified
              (Image_fromarray (cvtColor_BGR2RGB [[(10, 20, 30)]])) :: suf ∧
        ∀ p, Event.remoteCalled p ∉ pre :=
  have h := C2_video_route sampleEnv "clip.MP4" (by decide)
  ⟨by decide, h.1, h.2 [[(10, 20, 30)]] (by decide)⟩

/-- Claim C3: for every path whose lowercased form ends in none of the
recognized extensions, `process_file` performs no classification call, no
remote generation call and no capture acquisition, and returns normally
with only the unsupported-file notice printed. -/
theorem C3_unsupported (env : Env) (path : String)
    (hI : isImagePath path = false) (hV : isVideoPath path = false) :
    process_file env path = ([Event.printed "Unsupported file!"], .ok ()) ∧
    (∀ f, Event.classified f ∉ (process_file env path).1) ∧
    (∀ p, Event.remoteCalled p ∉ (process_file env path).1) ∧
    (∀ p, Event.capOpened p ∉ (process_file env path).1) := by
  have he := process_file_unsupported env path hI hV
  rw [he]
  refine ⟨rfl, ?_, ?_, ?_⟩ <;> intro x hx <;>
    simp only [List.mem_singleton] at hx <;> exact Event.noConfusion hx

theorem C3_witness :
    isImagePath "doc.pdf" = false ∧ isVideoPath "doc.pdf" = false ∧
    process_file sampleEnv "doc.pdf"
      = ([Event.printed "Unsupported file!"], .ok ()) :=
  ⟨by decide, by decide,
    (C3_unsupported sampleEnv "doc.pdf" (by decide) (by decide)).1⟩

/-- Claim C4: `extract_middle_frame` seeks to frame index
`totalFrames / 2` (floor division) before decoding — its trace is exactly
open, seek to the middle index, read, release; when the decode at that
index fails it raises `FrameExtractionError`; and for a well-formed
zero-frame video (no index is decodable at or past the end) it likewise
raises `FrameExtractionError`. -/
theorem C4_middle_frame (env : Env) (path : String) :
    (extract_middle_frame env path).1
        = [Event.capOpened path,
           Event.capSought path ((env.videoOf path).totalFrames / 2),
           Event.capRead path, Event.capReleased path] ∧
    ((env.videoOf path).decodeAt ((env.videoOf path).totalFrames / 2) = none →
      (extract_middle_frame env path).2 = .error .frameExtractionError) ∧
    ((∀ i, (env.videoOf path).totalFrames ≤ i →
        (env.videoOf path).decodeAt i = none) →
      (env.videoOf path).totalFrames = 0 →
      (extract_middle_frame env path).2 = .error .frameExtractionError) := by
  refine ⟨rfl, ?_, ?_⟩
  · intro hd
    unfold extract_middle_frame
    dsimp only
    rw [hd]
  · intro hwf h0
    unfold extract_middle_frame
    dsimp only
    rw [hwf ((env.videoOf path).totalFrames / 2) (by omega)]

theorem C4_witness :
    (extract_middle_frame failEnv "clip.mp4").2
      = .error .frameExtractionError :=
  (C4_middle_frame failEnv "clip.mp4").2.2 (fun _ _ => rfl) rfl

/-- Claim C5: whenever the middle-frame decode succeeds,
`extract_middle_frame` returns an RGB-ordered frame in which every pixel
is the channel permutation (B, G, R) to (R, G, B) of the pixel the decoder
produced at the same position in its native BGR order. -/
theorem C5_rgb_permutation (env : Env) (path : String) (raw : RawFrame)
    (hd : (env.videoOf path).decodeAt ((env.videoOf path).totalFrames / 2)
        = some raw) :
    ∃ f, (extract_middle_frame env path).2 = .ok f ∧
      f.order = ChannelOrder.rgb ∧
      ∀ (i j : Nat) (b g r : Nat),
        (raw[i]?.bind fun row => row[j]?) = some (b, g, r) →
          (f.pixels[i]?.bind fun row => row[j]?) = some (r, g, b) := by
  refine ⟨Image_fromarray (cvtColor_BGR2RGB raw), ?_, rfl, ?_⟩
  · unfold extract_middle_frame
    dsimp only
    rw [hd]
  · intro i j b g r hij
    unfold Image_fromarray cvtColor_BGR2RGB
    dsimp only
    cases hi : raw[i]? with
    | none => rw [hi] at hij; simp at hij
    | some row =>
      rw [hi] at hij
      simp only [Option.some_bind] at hij
      rw [List.getElem?_map, hi]
      simp only [Option.map_some', Option.some_bind]
      rw [List.getElem?_map, hij]
      rfl

theorem C5_witness :
    ∃ f, (extract_middle_frame sampleEnv "clip.mp4").2 = .ok f ∧
      f.order = ChannelOrder.rgb ∧
      ∀ (i j : Nat) (b g r : Nat),
        (([[(10, 20, 30)]] : RawFrame)[i]?.bind fun row => row[j]?)
            = some (b, g, r) →
          (f.pixels[i]?.bind fun row => row[j]?) = some (r, g, b) :=
  C5_rgb_permutation sampleEnv "clip.mp4" [[(10, 20, 30)]] (by decide)

/-- Claim C6: every frame passed to `classify_image` during any run of
`process_file` — image branch and video branch alike — has its channel
order normalized to RGB. -/
theorem C6_rgb_invariant (env : Env) (path : String) (f : Frame)
    (h : Event.classified f ∈ (process_file env path).1) :
    f.order = ChannelOrder.rgb := by
  cases hi : isImagePath path with
  | true =>
    rw [process_file_image env path hi] at h
    obtain ⟨rest, hr, hrest⟩ :=
      report_results_shape env (env.classify (Image_open env path))
    dsimp only at h
    rw [hr] at h
    simp only [List.mem_cons] at h
    rcases h with h | h | h | h | h
    · exact Event.noConfusion h
    · exact Event.noConfusion h
    · cases h; rfl
    · exact Event.noConfusion h
    · rcases hrest _ h with ⟨s, hs⟩ | ⟨q, hq⟩
      · exact Event.noConfusion hs
      · exact Event.noConfusion hq
  | false =>
    cases hv : isVideoPath path with
    | false =>
      rw [process_file_unsupported env path hi hv] at h
      simp only [List.mem_singleton] at h
      exact Event.noConfusion h
    | true =>
      cases hd : (env.videoOf path).decodeAt
          ((env.videoOf path).totalFrames / 2) with
      | none =>
        rw [process_file_video_err env path hi hv hd] at h
        simp only [List.mem_cons, List.not_mem_nil, or_false] at h
        rcases h with h | h | h | h | h <;> exact Event.noConfusion h
      | some raw =>
        rw [process_file_video_ok env path raw hi hv hd] at h
        obtain ⟨rest, hr, hrest⟩ :=
          report_results_shape env
            (env.classify (Image_fromarray (cvtColor_BGR2RGB raw)))
        dsimp only at h
        rw [hr] at h
        simp only [List.mem_cons] at h
        rcases h with h | h | h | h | h | h | h | h
        · exact Event.noConfusion h
        · exact Event.noConfusion h
        · exact Event.noConfusion h
        · exact Event.noConfusion h
        · exact Event.noConfusion h
        · cases h; rfl
        · exact Event.noConfusion h
        · rcases hrest _ h with ⟨s, hs⟩ | ⟨q, hq⟩
          · exact Event.noConfusion hs
          · exact Event.noConfusion hq

theorem C6_witness :
    (Image_open sampleEnv "beach.jpg").order = ChannelOrder.rgb :=
  C6_rgb_invariant sampleEnv "beach.jpg" (Image_open sampleEnv "beach.jpg")
    (by decide)

/-- Claim C7: for every theme, `generate_caption_and_hashtags` builds two
distinct prompts each containing the theme verbatim, issues exactly one
remote request per prompt (the trace is exactly those two requests, in
order), and returns the pair whose elements are the first text segments of
the respective responses. -/
theorem C7_two_prompts (env : Env) (theme : String) (d1 d2 : BedrockResponse)
    (t1 t2 : String) (r1 r2 : List String)
    (h1 : env.remote (caption_prompt theme) = .ok d1)
    (hc1 : d1.content = t1 :: r1)
    (h2 : env.remote (hashtags_prompt theme) = .ok d2)
    (hc2 : d2.content = t2 :: r2) :
    generate_caption_and_hashtags env theme
      = ([Event.remoteCalled (caption_prompt theme),
          Event.remoteCalled (hashtags_prompt theme)], .ok (t1, t2)) ∧
    caption_prompt theme ≠ hashtags_prompt theme ∧
    theme.data <:+: (caption_prompt theme).data ∧
    theme.data <:+: (hashtags_prompt theme).data := by
  refine ⟨generate_ok env theme d1 d2 t1 t2 r1 r2 h1 hc1 h2 hc2, ?_, ?_, ?_⟩
  · intro he
    have hl := congrArg String.length he
    simp only [caption_prompt, hashtags_prompt, String.length_append] at hl
    have e1 : ("\nGenerate 3 Instagram captions for: " : String).length = 36 := by decide
    have e2 : ("\n\n1. Aesthetic (under 12 words)\n2. Funny (under 12 words)\n3. Influencer style (under 12 words)\n" : String).length = 95 := by decide
    have e3 : ("\nGenerate 15 Instagram hashtags for " : String).length = 36 := by decide
    have e4 : (".\nRules:\n- lowercase\n- no spaces\n- comma separated\n" : String).length = 51 := by decide
    rw [e1, e2, e3, e4] at hl
    omega
  · exact ⟨"\nGenerate 3 Instagram captions for: ".data,
      "\n\n1. Aesthetic (under 12 words)\n2. Funny (under 12 words)\n3. Influencer style (under 12 words)\n".data,
      (caption_prompt_data theme).symm⟩
  · exact ⟨"\nGenerate 15 Instagram hashtags for ".data,
      ".\nRules:\n- lowercase\n- no spaces\n- comma separated\n".data,
      (hashtags_prompt_data theme).symm⟩

theorem C7_witness :
    generate_caption_and_hashtags sampleEnv "seashore"
      = ([Event.remoteCalled (caption_prompt "seashore"),
          Event.remoteCalled (hashtags_prompt "seashore")],
         .ok (caption_prompt "seashore", hashtags_prompt "seashore")) ∧
    caption_prompt "seashore" ≠ hashtags_prompt "seashore" ∧
    ("seashore" : String).data <:+: (caption_prompt "seashore").data ∧
    ("seashore" : String).data <:+: (hashtags_prompt "seashore").data :=
  C7_two_prompts sampleEnv "seashore"
    { content := [caption_prompt "seashore"] }
    { content := [hashtags_prompt "seashore"] }
    (caption_prompt "seashore") (hashtags_prompt "seashore") [] []
    rfl rfl rfl rfl

/-- Claim C8: the pipeline catches neither frame-extraction failures nor
remote-service failures, in any branch: a failing middle-frame decode in
the video branch makes `process_file` end in `FrameExtractionError`, and a
failing remote call — on either the caption prompt or, after a successful
first call, the hashtag prompt; reached from the image branch or from the
video branch after a successful decode alike — makes `process_file` end
in `RemoteServiceError`. -/
theorem C8_errors_propagate (env : Env) (path : String) :
    (isVideoPath path = true →
      (env.videoOf path).decodeAt ((env.videoOf path).totalFrames / 2)
          = none →
      (process_file env path).2 = .error .frameExtractionError) ∧
    (isImagePath path = true →
      ∀ u : Unit,
        env.remote (caption_prompt (env.classify (Image_open env path)))
            = .error u →
        (process_file env path).2 = .error .remoteServiceError) ∧
    (isImagePath path = true →
      ∀ (d1 : BedrockResponse) (t1 : String) (r1 : List String) (u : Unit),
        env.remote (caption_prompt (env.classify (Image_open env path)))
            = .ok d1 →
        d1.content = t1 :: r1 →
        env.remote (hashtags_prompt (env.classify (Image_open env path)))
            = .error u →
        (process_file env path).2 = .error .remoteServiceError) ∧
    (isVideoPath path = true →
      ∀ raw,
        (env.videoOf path).decodeAt ((env.videoOf path).totalFrames / 2)
            = some raw →
        ∀ u : Unit,
          env.remote (caption_prompt
              (env.classify (Image_fromarray (cvtColor_BGR2RGB raw))))
              = .error u →
          (process_file env path).2 = .error .remoteServiceError) ∧
    (isVideoPath path = true →
      ∀ raw,
        (env.videoOf path).decodeAt ((env.videoOf path).totalFrames / 2)
            = some raw →
        ∀ (d1 : BedrockResponse) (t1 : String) (r1 : List String) (u : Unit),
          env.remote (caption_prompt
              (env.classify (Image_fromarray (cvtColor_BGR2RGB raw))))
              = .ok d1 →
          d1.content = t1 :: r1 →
          env.remote (hashtags_prompt
              (env.classify (Image_fromarray (cvtColor_BGR2RGB raw))))
              = .error u →
          (process_file env path).2 = .error .remoteServiceError) := by
  refine ⟨?_, ?_, ?_, ?_, ?_⟩
  · intro hv hd
    rw [process_file_video_err env path (image_video_disjoint path hv) hv hd]
  · intro hi u hr
    rw [process_file_image env path hi]
    dsimp only
    rw [report_results_of_err env _ _ _ (generate_err1 env _ u hr)]
  · intro hi d1 t1 r1 u hq1 hqc1 hq2
    rw [process_file_image env path hi]
    dsimp only
    rw [report_results_of_err env _ _ _
      (generate_err2 env _ d1 t1 r1 u hq1 hqc1 hq2)]
  · intro hv raw hd u hr
    rw [process_file_video_ok env path raw (image_video_disjoint path hv) hv hd]
    dsimp only
    rw [report_results_of_err env _ _ _ (generate_err1 env _ u hr)]
  · intro hv raw hd d1 t1 r1 u hq1 hqc1 hq2
    rw [process_file_video_ok env path raw (image_video_disjoint path hv) hv hd]
    dsimp only
    rw [report_results_of_err env _ _ _
      (generate_err2 env _ d1 t1 r1 u hq1 hqc1 hq2)]

theorem C8_witness :
    (process_file failEnv "clip.mp4").2 = .error .frameExtractionError ∧
    (process_file failEnv "beach.jpg").2 = .error .remoteServiceError ∧
    (process_file remoteFailEnv "clip.mp4").2 = .error .remoteServiceError :=
  ⟨(C8_errors_propagate failEnv "clip.mp4").1 (by decide) rfl,
   (C8_errors_propagate failEnv "beach.jpg").2.1 (by decide) () rfl,
   (C8_errors_propagate remoteFailEnv "clip.mp4").2.2.2.1 (by decide)
     [[(10, 20, 30)]] (by decide) () rfl⟩

/-- Claim C9: every execution of `extract_middle_frame` — returning a
frame or raising on decode failure alike — emits exactly the trace open,
seek, read, release: the capture handle acquired at entry is released
before the call exits. -/
theorem C9_handle_released (env : Env) (path : String) :
    (extract_middle_frame env path).1
      = [Event.capOpened path,
         Event.capSought path ((env.videoOf path).totalFrames / 2),
         Event.capRead path, Event.capReleased path] := rfl

/-- Claim C10: in every run in which `process_file` reaches classification,
the detected-theme line is printed before any remote request is issued:
the trace splits as a prefix free of remote calls, then the theme print,
then the rest. -/
theorem C10_theme_before_remote (env : Env) (path : String) (f : Frame)
    (h : Event.classified f ∈ (process_file env path).1) :
    ∃ pre suf,
      (process_file env path).1
          = pre ++ Event.printed (detectedTheme (env.classify f)) :: suf ∧
        ∀ p, Event.remoteCalled p ∉ pre := by
  cases hi : isImagePath path with
  | true =>
    rw [process_file_image env path hi] at h ⊢
    obtain ⟨rest, hr, hrest⟩ :=
      report_results_shape env (env.classify (Image_open env path))
    dsimp only at h ⊢
    rw [hr] at h ⊢
    simp only [List.mem_cons] at h
    have hf : f = Image_open env path := by
      rcases h with h | h | h | h | h
      · exact Event.noConfusion h
      · exact Event.noConfusion h
      · cases h; rfl
      · exact Event.noConfusion h
      · rcases hrest _ h with ⟨s, hs⟩ | ⟨q, hq⟩
        · exact Event.noConfusion hs
        · exact Event.noConfusion hq
    subst hf
    refine ⟨[Event.printed "Processing IMAGE...\n", Event.imageOpened path,
      Event.classified (Image_open env path)], rest, by simp, ?_⟩
    intro p hp
    simp only [List.mem_cons, List.not_mem_nil, or_false] at hp
    rcases hp with hp | hp | hp <;> exact Event.noConfusion hp
  | false =>
    cases hv : isVideoPath path with
    | false =>
      rw [process_file_unsupported env path hi hv] at h
      simp only [List.mem_singleton] at h
      exact Event.noConfusion h
    | true =>
      cases hd : (env.videoOf path).decodeAt
          ((env.videoOf path).totalFrames / 2) with
      | none =>
        rw [process_file_video_err env path hi hv hd] at h
        simp only [List.mem_cons, List.not_mem_nil, or_false] at h
        rcases h with h | h | h | h | h <;> exact Event.noConfusion h
      | some raw =>
        rw [process_file_video_ok env path raw hi hv hd] at h ⊢
        obtain ⟨rest, hr, hrest⟩ :=
          report_results_shape env
            (env.classify (Image_fromarray (cvtColor_BGR2RGB raw)))
        dsimp only at h ⊢
        rw [hr] at h ⊢
        simp only [List.mem_cons] at h
        have hf : f = Image_fromarray (cvtColor_BGR2RGB raw) := by
          rcases h with h | h | h | h | h | h | h | h
          · exact Event.noConfusion h
          · exact Event.noConfusion h
          · exact Event.noConfusion h
          · exact Event.noConfusion h
          · exact Event.noConfusion h
          · cases h; rfl
          · exact Event.noConfusion h
          · rcases hrest _ h with ⟨s, hs⟩ | ⟨q, hq⟩
            · exact Event.noConfusion hs
            · exact Event.noConfusion hq
        subst hf
        refine ⟨[Event.printed "Processing VIDEO...\n", Event.capOpened path,
          Event.capSought path ((env.videoOf path).totalFrames / 2),
          Event.capRead path, Event.capReleased path,
          Event.classified (Image_fromarray (cvtColor_BGR2RGB raw))],
          rest, by simp, ?_⟩
        intro p hp
        simp only [List.mem_cons, List.not_mem_nil, or_false] at hp
        rcases hp with hp | hp | hp | hp | hp | hp <;> exact Event.noConfusion hp

theorem C10_witness :
    ∃ pre suf,
      (process_file sampleEnv "beach.jpg").1
          = pre ++ Event.printed
              (detectedTheme
                (sampleEnv.classify (Image_open sampleEnv "beach.jpg")))
              :: suf ∧
        ∀ p, Event.remoteCalled p ∉ pre :=
  C10_theme_before_remote sampleEnv "beach.jpg"
    (Image_open sampleEnv "beach.jpg") (by decide)

end CaptionApp
